import Mathlib

/-!
Verification development for the asset-management backend: a shallow
embedding of the access-control services (folder, note, share), the
read-through cache wrappers, the Redis-style cache primitives with
fault injection, and the Kafka consumer retry loop, together with
theorems settling the specification claims.

IDs (users, folders, notes, teams) are modelled as `Nat`.  Access levels
are strings, as in the Go source ("read", "write", and "" meaning no
access).  The relational store is a record of lists mirroring the tables
created by the migration; gorm calls are translated one-to-one:
`First` is `List.find?`, `Count > 0` is `List.any`, `Create` is an
insert that fails on a primary-key conflict, `Delete` is a filter.
-/

namespace AssetMgmt

structure User where
  userId : Nat
  username : String
  role : String
  deriving Repr, DecidableEq

structure Folder where
  folderId : Nat
  name : String
  description : String
  ownerId : Nat
  deriving Repr, DecidableEq

structure Note where
  noteId : Nat
  title : String
  body : String
  folderId : Nat
  ownerId : Nat
  deriving Repr, DecidableEq

structure FolderShare where
  folderId : Nat
  sharedWithUserId : Nat
  accessLevel : String
  sharedBy : Nat
  deriving Repr, DecidableEq

structure NoteShare where
  noteId : Nat
  sharedWithUserId : Nat
  accessLevel : String
  sharedBy : Nat
  deriving Repr, DecidableEq

/-- The durable relational store: one list per table of the migration. -/
structure Store where
  users : List User
  folders : List Folder
  notes : List Note
  folderShares : List FolderShare
  noteShares : List NoteShare
  deriving Repr, DecidableEq

/-! ## Repository layer (internal/repository/postgres) -/

/-- folderRepository.CheckOwnership: count of rows with matching
folder_id and owner_id, returned as count > 0. -/
def folderCheckOwnership (st : Store) (folderID userID : Nat) : Bool :=
  st.folders.any (fun f => f.folderId == folderID && f.ownerId == userID)

/-- folderRepository.GetByID: `First` on folder_id; `none` is
gorm.ErrRecordNotFound. -/
def folderGetByID (st : Store) (folderID : Nat) : Option Folder :=
  st.folders.find? (fun f => f.folderId == folderID)

/-- noteRepository.CheckOwnership. -/
def noteCheckOwnership (st : Store) (noteID userID : Nat) : Bool :=
  st.notes.any (fun n => n.noteId == noteID && n.ownerId == userID)

/-- noteRepository.GetByID. -/
def noteGetByID (st : Store) (noteID : Nat) : Option Note :=
  st.notes.find? (fun n => n.noteId == noteID)

/-- userRepository.GetByID. -/
def userGetByID (st : Store) (userID : Nat) : Option User :=
  st.users.find? (fun u => u.userId == userID)

/-- shareRepository.CheckFolderAccess: `First` on the folder_shares pair;
a missing row yields the empty access level, not an error. -/
def checkFolderAccess (st : Store) (folderID userID : Nat) : String :=
  match st.folderShares.find?
      (fun s => s.folderId == folderID && s.sharedWithUserId == userID) with
  | some s => s.accessLevel
  | none => ""

/-- shareRepository.CheckNoteAccess. -/
def checkNoteAccess (st : Store) (noteID userID : Nat) : String :=
  match st.noteShares.find?
      (fun s => s.noteId == noteID && s.sharedWithUserId == userID) with
  | some s => s.accessLevel
  | none => ""

/-- shareRepository.ShareFolder is `db.Create`, a plain INSERT; the
folder_shares primary key (folder_id, shared_with_user_id) makes the
insert fail with a uniqueness violation when a grant for the pair
already exists.  `none` is that database error. -/
def repoShareFolder (st : Store) (share : FolderShare) : Option Store :=
  if st.folderShares.any
      (fun s => s.folderId == share.folderId &&
        s.sharedWithUserId == share.sharedWithUserId) then
    none
  else
    some { st with folderShares := share :: st.folderShares }

/-- shareRepository.ShareNote: plain INSERT against the note_shares
primary key (note_id, shared_with_user_id). -/
def repoShareNote (st : Store) (share : NoteShare) : Option Store :=
  if st.noteShares.any
      (fun s => s.noteId == share.noteId &&
        s.sharedWithUserId == share.sharedWithUserId) then
    none
  else
    some { st with noteShares := share :: st.noteShares }

/-- shareRepository.UnshareFolder: `db.Delete` with a WHERE clause;
deleting zero rows is not an error. -/
def repoUnshareFolder (st : Store) (folderID userID : Nat) : Store :=
  let kept := st.folderShares.filter
    (fun s => !(s.folderId == folderID && s.sharedWithUserId == userID))
  { st with folderShares := kept }

/-- shareRepository.UnshareNote. -/
def repoUnshareNote (st : Store) (noteID userID : Nat) : Store :=
  let kept := st.noteShares.filter
    (fun s => !(s.noteId == noteID && s.sharedWithUserId == userID))
  { st with noteShares := kept }

/-- noteRepository.Update: `db.Save` replaces the row with the same
primary key. -/
def repoNoteUpdate (st : Store) (note : Note) : Store :=
  let rows := st.notes.map
    (fun n => if n.noteId == note.noteId then note else n)
  { st with notes := rows }

/-- folderRepository.Update. -/
def repoFolderUpdate (st : Store) (folder : Folder) : Store :=
  let rows := st.folders.map
    (fun f => if f.folderId == folder.folderId then folder else f)
  { st with folders := rows }

/-- noteRepository.Delete: cascade removes the note and its shares. -/
def repoNoteDelete (st : Store) (noteID : Nat) : Store :=
  let keptNotes := st.notes.filter (fun n => !(n.noteId == noteID))
  let keptShares := st.noteShares.filter (fun s => !(s.noteId == noteID))
  { st with notes := keptNotes, noteShares := keptShares }

/-- folderRepository.Delete: the foreign keys cascade to the contained
notes, the folder shares, and the shares of the contained notes. -/
def repoFolderDelete (st : Store) (folderID : Nat) : Store :=
  let doomed := (st.notes.filter (fun n => n.folderId == folderID)).map
    (fun n => n.noteId)
  let keptFolders := st.folders.filter (fun f => !(f.folderId == folderID))
  let keptNotes := st.notes.filter (fun n => !(n.folderId == folderID))
  let keptFS := st.folderShares.filter (fun s => !(s.folderId == folderID))
  let keptNS := st.noteShares.filter (fun s => !(doomed.contains s.noteId))
  { st with folders := keptFolders, notes := keptNotes,
            folderShares := keptFS, noteShares := keptNS }

/-! ## Service error taxonomy

One constructor per distinct error production site in the Go services
(`errors.New` / `fmt.Errorf`).  The two `failedToGet...` constructors
are the wrapped errors produced when an inner `GetByID` fails at a
point where the service does not map gorm.ErrRecordNotFound to its
dedicated not-found message. -/
inductive Err
  | noteTitleRequired
  | folderNameRequired
  | accessDeniedViewFolder
  | accessDeniedWriteFolder
  | accessDeniedDeleteFolder
  | accessDeniedViewNote
  | accessDeniedWriteNote
  | accessDeniedDeleteNote
  | folderNotFound
  | noteNotFound
  | failedToGetFolder
  | failedToGetNote
  | invalidAccessLevel
  | accessDeniedShareFolder
  | accessDeniedUnshareFolder
  | accessDeniedShareNote
  | accessDeniedUnshareNote
  | targetUserNotFound
  | ownerUserNotFound
  | cannotShareFolderWithSelf
  | cannotShareNoteWithSelf
  | failedToShareFolder
  | failedToShareNote
  deriving Repr, DecidableEq

/-! ## Folder service (internal/service/folder_service.go) -/

/-- The shared tail of folderService.GetFolder: fetch by ID, mapping
gorm.ErrRecordNotFound to the "folder not found" error. -/
def getFolderFetch (st : Store) (folderID : Nat) : Except Err Folder :=
  match folderGetByID st folderID with
  | none => Except.error Err.folderNotFound
  | some f => Except.ok f

/-- folderService.GetFolder: ownership check, then share-grant check for
non-owners, then the fetch. -/
def getFolder (st : Store) (folderID userID : Nat) : Except Err Folder :=
  if folderCheckOwnership st folderID userID then
    getFolderFetch st folderID
  else if checkFolderAccess st folderID userID == "" then
    Except.error Err.accessDeniedViewFolder
  else
    getFolderFetch st folderID

/-- folderService.UpdateFolder: validation, fetch of the existing row,
then ownership or write-grant check, then the save. -/
def updateFolder (st : Store) (folderID userID : Nat)
    (name description : String) : Except Err (Folder × Store) :=
  if name == "" then
    Except.error Err.folderNameRequired
  else
    match folderGetByID st folderID with
    | none => Except.error Err.folderNotFound
    | some existing =>
      if folderCheckOwnership st folderID userID then
        let updated := { existing with name := name, description := description }
        Except.ok (updated, repoFolderUpdate st updated)
      else if checkFolderAccess st folderID userID == "write" then
        let updated := { existing with name := name, description := description }
        Except.ok (updated, repoFolderUpdate st updated)
      else
        Except.error Err.accessDeniedWriteFolder

/-- folderService.DeleteFolder: fetch, owner-only check, cascade delete. -/
def deleteFolder (st : Store) (folderID userID : Nat) : Except Err Store :=
  match folderGetByID st folderID with
  | none => Except.error Err.folderNotFound
  | some _ =>
    if folderCheckOwnership st folderID userID then
      Except.ok (repoFolderDelete st folderID)
    else
      Except.error Err.accessDeniedDeleteFolder

/-! ## Note service (internal/service/note_service.go) -/

/-- The final fetch of noteService.GetNote / UpdateNote, mapping
gorm.ErrRecordNotFound to the "note not found" error. -/
def getNoteFetch (st : Store) (noteID : Nat) : Except Err Note :=
  match noteGetByID st noteID with
  | none => Except.error Err.noteNotFound
  | some n => Except.ok n

/-- noteService.GetNote: ownership, then direct note grant, then (only
when no direct grant exists) the parent-folder grant; the inner GetByID
used to find the parent folder wraps a missing note as a generic error
rather than the dedicated not-found message. -/
def getNote (st : Store) (noteID userID : Nat) : Except Err Note :=
  if noteCheckOwnership st noteID userID then
    getNoteFetch st noteID
  else if checkNoteAccess st noteID userID == "" then
    match noteGetByID st noteID with
    | none => Except.error Err.failedToGetNote
    | some n =>
      if checkFolderAccess st n.folderId userID == "" then
        Except.error Err.accessDeniedViewNote
      else
        getNoteFetch st noteID
  else
    getNoteFetch st noteID

/-- The write applied by noteService.UpdateNote once authorized. -/
def updateNoteApply (st : Store) (noteID : Nat) (title body : String) :
    Except Err (Note × Store) :=
  match noteGetByID st noteID with
  | none => Except.error Err.noteNotFound
  | some n =>
    let updated := { n with title := title, body := body }
    Except.ok (updated, repoNoteUpdate st updated)

/-- noteService.UpdateNote: validation, ownership, direct note grant; the
folder fallback is consulted whenever the direct grant level is not
"write" (including when a direct "read" grant exists). -/
def updateNote (st : Store) (noteID userID : Nat) (title body : String) :
    Except Err (Note × Store) :=
  if title == "" then
    Except.error Err.noteTitleRequired
  else if noteCheckOwnership st noteID userID then
    updateNoteApply st noteID title body
  else if checkNoteAccess st noteID userID == "write" then
    updateNoteApply st noteID title body
  else
    match noteGetByID st noteID with
    | none => Except.error Err.failedToGetNote
    | some n =>
      if checkFolderAccess st n.folderId userID == "write" then
        updateNoteApply st noteID title body
      else
        Except.error Err.accessDeniedWriteNote

/-- noteService.DeleteNote: owner-only. -/
def deleteNote (st : Store) (noteID userID : Nat) : Except Err Store :=
  if noteCheckOwnership st noteID userID then
    Except.ok (repoNoteDelete st noteID)
  else
    Except.error Err.accessDeniedDeleteNote

/-! ## Share service (internal/service/share_service.go)

The share operations are instrumented with a trace of the store calls
they issue, in program order, so that statements about what happens
before a rejection can be made.  The untraced services are the first
projections. -/

inductive StoreCall
  | folderOwnershipCheck
  | noteOwnershipCheck
  | userLookup
  | shareInsert
  | shareDelete
  deriving Repr, DecidableEq

/-- shareService.ShareFolder, with its store-call trace.  The order of
checks mirrors the source: access-level validation, ownership check,
target-user lookup, self-share check, owner lookup, insert. -/
def shareFolderT (st : Store) (folderID ownerID targetUserID : Nat)
    (accessLevel : String) : Except Err Store × List StoreCall :=
  if accessLevel != "read" && accessLevel != "write" then
    (Except.error Err.invalidAccessLevel, [])
  else if !(folderCheckOwnership st folderID ownerID) then
    (Except.error Err.accessDeniedShareFolder, [StoreCall.folderOwnershipCheck])
  else
    match userGetByID st targetUserID with
    | none =>
      (Except.error Err.targetUserNotFound,
        [StoreCall.folderOwnershipCheck, StoreCall.userLookup])
    | some _ =>
      if ownerID == targetUserID then
        (Except.error Err.cannotShareFolderWithSelf,
          [StoreCall.folderOwnershipCheck, StoreCall.userLookup])
      else
        match userGetByID st ownerID with
        | none =>
          (Except.error Err.ownerUserNotFound,
            [StoreCall.folderOwnershipCheck, StoreCall.userLookup,
              StoreCall.userLookup])
        | some _ =>
          let share : FolderShare :=
            { folderId := folderID, sharedWithUserId := targetUserID,
              accessLevel := accessLevel, sharedBy := ownerID }
          match repoShareFolder st share with
          | none =>
            (Except.error Err.failedToShareFolder,
              [StoreCall.folderOwnershipCheck, StoreCall.userLookup,
                StoreCall.userLookup, StoreCall.shareInsert])
          | some st2 =>
            (Except.ok st2,
              [StoreCall.folderOwnershipCheck, StoreCall.userLookup,
                StoreCall.userLookup, StoreCall.shareInsert])

/-- shareService.ShareFolder (result only). -/
def shareFolder (st : Store) (folderID ownerID targetUserID : Nat)
    (accessLevel : String) : Except Err Store :=
  (shareFolderT st folderID ownerID targetUserID accessLevel).1

/-- shareService.ShareNote, with its store-call trace. -/
def shareNoteT (st : Store) (noteID ownerID targetUserID : Nat)
    (accessLevel : String) : Except Err Store × List StoreCall :=
  if accessLevel != "read" && accessLevel != "write" then
    (Except.error Err.invalidAccessLevel, [])
  else if !(noteCheckOwnership st noteID ownerID) then
    (Except.error Err.accessDeniedShareNote, [StoreCall.noteOwnershipCheck])
  else
    match userGetByID st targetUserID with
    | none =>
      (Except.error Err.targetUserNotFound,
        [StoreCall.noteOwnershipCheck, StoreCall.userLookup])
    | some _ =>
      if ownerID == targetUserID then
        (Except.error Err.cannotShareNoteWithSelf,
          [StoreCall.noteOwnershipCheck, StoreCall.userLookup])
      else
        match userGetByID st ownerID with
        | none =>
          (Except.error Err.ownerUserNotFound,
            [StoreCall.noteOwnershipCheck, StoreCall.userLookup,
              StoreCall.userLookup])
        | some _ =>
          let share : NoteShare :=
            { noteId := noteID, sharedWithUserId := targetUserID,
              accessLevel := accessLevel, sharedBy := ownerID }
          match repoShareNote st share with
          | none =>
            (Except.error Err.failedToShareNote,
              [StoreCall.noteOwnershipCheck, StoreCall.userLookup,
                StoreCall.userLookup, StoreCall.shareInsert])
          | some st2 =>
            (Except.ok st2,
              [StoreCall.noteOwnershipCheck, StoreCall.userLookup,
                StoreCall.userLookup, StoreCall.shareInsert])

/-- shareService.ShareNote (result only). -/
def shareNote (st : Store) (noteID ownerID targetUserID : Nat)
    (accessLevel : String) : Except Err Store :=
  (shareNoteT st noteID ownerID targetUserID accessLevel).1

/-- shareService.UnshareFolder: ownership check, owner lookup, then the
delete; deleting a non-existent grant is not an error. -/
def unshareFolder (st : Store) (folderID ownerID targetUserID : Nat) :
    Except Err Store :=
  if !(folderCheckOwnership st folderID ownerID) then
    Except.error Err.accessDeniedUnshareFolder
  else
    match userGetByID st ownerID with
    | none => Except.error Err.ownerUserNotFound
    | some _ => Except.ok (repoUnshareFolder st folderID targetUserID)

/-- shareService.UnshareNote. -/
def unshareNote (st : Store) (noteID ownerID targetUserID : Nat) :
    Except Err Store :=
  if !(noteCheckOwnership st noteID ownerID) then
    Except.error Err.accessDeniedUnshareNote
  else
    match userGetByID st ownerID with
    | none => Except.error Err.ownerUserNotFound
    | some _ => Except.ok (repoUnshareNote st noteID targetUserID)

/-! ## Cache layer (pkg/cache and the Redis implementation)

Each namespace is an association list keyed by ID.  The Redis list
semantics of the team-members namespace (LPush prepends, LRem with
count 0 removes every occurrence) and the hash semantics of the ACL
namespace (HSet sets a field, HDel removes one) are preserved.  The
fault-injection switches model a failing Redis call on the incremental
primitives and on `Del`, the only failure modes the invalidation
handlers react to. -/

structure Cache where
  folderMeta : List (Nat × Folder)
  noteMeta : List (Nat × Note)
  teamMembers : List (Nat × List Nat)
  assetACL : List (Nat × List (Nat × String))
  deriving Repr, DecidableEq

def emptyCache : Cache := ⟨[], [], [], []⟩

/-- RedisCacheService.GetFolderMetadata: `none` is a cache miss. -/
def cacheGetFolderMeta (c : Cache) (folderID : Nat) : Option Folder :=
  (c.folderMeta.find? (fun p => p.1 == folderID)).map (fun p => p.2)

/-- RedisCacheService.CacheFolderMetadata: SetJSON overwrites the key. -/
def cachePutFolderMeta (c : Cache) (f : Folder) : Cache :=
  let rest := c.folderMeta.filter (fun p => !(p.1 == f.folderId))
  { c with folderMeta := (f.folderId, f) :: rest }

/-- RedisCacheService.GetNoteMetadata. -/
def cacheGetNoteMeta (c : Cache) (noteID : Nat) : Option Note :=
  (c.noteMeta.find? (fun p => p.1 == noteID)).map (fun p => p.2)

/-- RedisCacheService.CacheNoteMetadata. -/
def cachePutNoteMeta (c : Cache) (n : Note) : Cache :=
  let rest := c.noteMeta.filter (fun p => !(p.1 == n.noteId))
  { c with noteMeta := (n.noteId, n) :: rest }

/-- The team-members entry for a team, `none` when the key is absent. -/
def teamLookup (c : Cache) (teamID : Nat) : Option (List Nat) :=
  (c.teamMembers.find? (fun p => p.1 == teamID)).map (fun p => p.2)

/-- RedisCacheService.AddTeamMember: if the key does not exist the update
is skipped (the cache will be populated on the next read); otherwise the
member is LPushed onto the list unconditionally. -/
def addTeamMember (c : Cache) (teamID memberID : Nat) : Cache :=
  match teamLookup c teamID with
  | none => c
  | some entry =>
    let rest := c.teamMembers.filter (fun p => !(p.1 == teamID))
    { c with teamMembers := (teamID, memberID :: entry) :: rest }

/-- RedisCacheService.RemoveTeamMember: LRem with count 0 removes every
occurrence of the member; a missing key removes nothing. -/
def removeTeamMember (c : Cache) (teamID memberID : Nat) : Cache :=
  match teamLookup c teamID with
  | none => c
  | some entry =>
    let rest := c.teamMembers.filter (fun p => !(p.1 == teamID))
    { c with teamMembers := (teamID, entry.filter (fun m => !(m == memberID))) :: rest }

/-- The ACL hash for an asset, `none` when the key is absent. -/
def aclLookup (c : Cache) (assetID : Nat) : Option (List (Nat × String)) :=
  (c.assetACL.find? (fun p => p.1 == assetID)).map (fun p => p.2)

/-- Fault-injection switches for the Redis primitives used by the
invalidation handlers. -/
structure CacheFaults where
  hsetFails : Bool
  hdelFails : Bool
  delFails : Bool
  deriving Repr, DecidableEq

/-- RedisCacheService.UpdateAssetACL: skipped successfully when the key
is absent; otherwise HSet sets the grantee's field and can fail. -/
def updateAssetACL (fl : CacheFaults) (c : Cache) (assetID userID : Nat)
    (level : String) : Option Cache :=
  match aclLookup c assetID with
  | none => some c
  | some entry =>
    if fl.hsetFails then
      none
    else
      let entry2 := (userID, level) :: entry.filter (fun p => !(p.1 == userID))
      let rest := c.assetACL.filter (fun p => !(p.1 == assetID))
      some { c with assetACL := (assetID, entry2) :: rest }

/-- RedisCacheService.RemoveAssetACL: HDel of the grantee's field, which
can fail; a missing key or field is success. -/
def removeAssetACL (fl : CacheFaults) (c : Cache) (assetID userID : Nat) :
    Option Cache :=
  if fl.hdelFails then
    none
  else
    match aclLookup c assetID with
    | none => some c
    | some entry =>
      let rest := c.assetACL.filter (fun p => !(p.1 == assetID))
      some { c with assetACL := (assetID, entry.filter (fun p => !(p.1 == userID))) :: rest }

/-- RedisCacheService.InvalidateAssetACL: Del of the whole key. -/
def invalidateAssetACL (fl : CacheFaults) (c : Cache) (assetID : Nat) :
    Option Cache :=
  if fl.delFails then
    none
  else
    some { c with assetACL := c.assetACL.filter (fun p => !(p.1 == assetID)) }

/-! ## Cache-integrated services (internal/service/cache_integration.go) -/

/-- CacheIntegratedFolderService.GetFolder: on a cache hit the cached
folder is returned directly; only on a miss is the store-backed service
(and hence its authorization logic) consulted, after which the result
is cached. -/
def cacheIntegratedGetFolder (c : Cache) (st : Store) (folderID userID : Nat) :
    Except Err Folder × Cache :=
  match cacheGetFolderMeta c folderID with
  | some cached => (Except.ok cached, c)
  | none =>
    match getFolder st folderID userID with
    | Except.error e => (Except.error e, c)
    | Except.ok folder => (Except.ok folder, cachePutFolderMeta c folder)

/-- CacheIntegratedNoteService.GetNote. -/
def cacheIntegratedGetNote (c : Cache) (st : Store) (noteID userID : Nat) :
    Except Err Note × Cache :=
  match cacheGetNoteMeta c noteID with
  | some cached => (Except.ok cached, c)
  | none =>
    match getNote st noteID userID with
    | Except.error e => (Except.error e, c)
    | Except.ok note => (Except.ok note, cachePutNoteMeta c note)

/-! ## Event-driven cache invalidation (internal/cache/redis/event_handler.go)

Handler errors on the fallback path are only logged, so the handlers
always return a cache state. -/

/-- CacheEventHandler.handleAssetShared: incremental ACL upsert, falling
back to full invalidation of the asset's ACL key on failure; a failure
of the fallback itself is only logged. -/
def handleAssetShared (fl : CacheFaults) (c : Cache) (assetID userID : Nat)
    (level : String) : Cache :=
  match updateAssetACL fl c assetID userID level with
  | some c2 => c2
  | none =>
    match invalidateAssetACL fl c assetID with
    | some c2 => c2
    | none => c

/-- CacheEventHandler.handleAssetUnshared: incremental ACL removal with
the same fallback. -/
def handleAssetUnshared (fl : CacheFaults) (c : Cache) (assetID userID : Nat) :
    Cache :=
  match removeAssetACL fl c assetID userID with
  | some c2 => c2
  | none =>
    match invalidateAssetACL fl c assetID with
    | some c2 => c2
    | none => c

/-! ## Kafka consumer retry loop (internal/events/kafka/consumer.go)

A handler is modelled as a function from the attempt index to a success
flag.  `processFrom handler attempt remaining` mirrors the retry loop of
KafkaConsumer.processMessage from attempt index `attempt` with
`remaining` attempts left; it reports how many times the handler was
invoked, the backoff sleeps (in seconds) between failed attempts, and
whether processing succeeded. -/

structure ProcessResult where
  invocations : Nat
  backoffs : List Nat
  ok : Bool
  deriving Repr, DecidableEq

def processFrom (handler : Nat → Bool) : Nat → Nat → ProcessResult
  | _, 0 => ⟨0, [], false⟩
  | attempt, Nat.succ remaining =>
    if handler attempt then
      ⟨1, [], true⟩
    else if remaining == 0 then
      ⟨1, [], false⟩
    else
      let rest := processFrom handler (attempt + 1) remaining
      ⟨rest.invocations + 1, (attempt + 1) :: rest.backoffs, rest.ok⟩

/-- KafkaConsumer.processMessage: maxRetries is 3; the sleep after failed
attempt `i` (for i before the last attempt) is `i + 1` seconds. -/
def processMessage (handler : Nat → Bool) : ProcessResult :=
  processFrom handler 0 3

/-- KafkaConsumer.consumeMessages: each message of the topic is processed
with its own retry budget; a processing error is logged and the loop
moves on to the next message.  Messages are modelled by the handler
outcomes they would produce. -/
def consumeMessages (handler : Nat → Nat → Bool) (msgs : List Nat) :
    List ProcessResult :=
  msgs.map (fun m => processMessage (handler m))

/-! ## Concrete fixtures -/

def alice : User := ⟨1, "alice", "manager"⟩

def bob : User := ⟨2, "bob", "member"⟩

def carol : User := ⟨3, "carol", "member"⟩

def budgetFolder : Folder := ⟨10, "Budget", "", 1⟩

def planNote : Note := ⟨20, "Plan", "q3", 10, 1⟩

/-- A store with three users, one folder and one note, both owned by
alice (user 1), and no share grants. -/
def baseStore : Store := ⟨[alice, bob, carol], [budgetFolder], [planNote], [], []⟩

/-! ## Helper lemmas -/

theorem folderCheckOwnership_shares (st : Store) (fs : List FolderShare)
    (ns : List NoteShare) (fid u : Nat) :
    folderCheckOwnership { st with folderShares := fs, noteShares := ns } fid u =
      folderCheckOwnership st fid u := rfl

theorem noteCheckOwnership_shares (st : Store) (fs : List FolderShare)
    (ns : List NoteShare) (nid u : Nat) :
    noteCheckOwnership { st with folderShares := fs, noteShares := ns } nid u =
      noteCheckOwnership st nid u := rfl

theorem folderGetByID_shares (st : Store) (fs : List FolderShare)
    (ns : List NoteShare) (fid : Nat) :
    folderGetByID { st with folderShares := fs, noteShares := ns } fid =
      folderGetByID st fid := rfl

theorem noteGetByID_shares (st : Store) (fs : List FolderShare)
    (ns : List NoteShare) (nid : Nat) :
    noteGetByID { st with folderShares := fs, noteShares := ns } nid =
      noteGetByID st nid := rfl

/-- A folder fetched by ID and owned by `u` makes the ownership count
positive. -/
theorem folderOwnership_of_getByID {st : Store} {fid u : Nat} {f : Folder}
    (hf : folderGetByID st fid = some f) (ho : f.ownerId = u) :
    folderCheckOwnership st fid u = true := by
  have hmem := List.mem_of_find?_eq_some hf
  have hp := List.find?_some hf
  simp only [folderCheckOwnership, List.any_eq_true]
  exact ⟨f, hmem, by simp_all⟩

theorem noteOwnership_of_getByID {st : Store} {nid u : Nat} {n : Note}
    (hn : noteGetByID st nid = some n) (ho : n.ownerId = u) :
    noteCheckOwnership st nid u = true := by
  have hmem := List.mem_of_find?_eq_some hn
  have hp := List.find?_some hn
  simp only [noteCheckOwnership, List.any_eq_true]
  exact ⟨n, hmem, by simp_all⟩

/-- If no folder row has the given ID, no ownership check can succeed. -/
theorem folderOwnership_false_of_getByID_none {st : Store} {fid : Nat} (u : Nat)
    (hf : folderGetByID st fid = none) :
    folderCheckOwnership st fid u = false := by
  rw [folderGetByID, List.find?_eq_none] at hf
  simp only [folderCheckOwnership, List.any_eq_false]
  intro f hmem
  simp_all [hf f hmem]

theorem noteOwnership_false_of_getByID_none {st : Store} {nid : Nat} (u : Nat)
    (hn : noteGetByID st nid = none) :
    noteCheckOwnership st nid u = false := by
  rw [noteGetByID, List.find?_eq_none] at hn
  simp only [noteCheckOwnership, List.any_eq_false]
  intro n hmem
  simp_all [hn n hmem]

/-! ## Claim C1 — cache transparency (code bug)

With the asset-metadata cache populated (as it is after any successful
read or write of the folder), `CacheIntegratedFolderService.GetFolder`
returns the cached snapshot to ANY caller without consulting the
store-backed authorization path, while the store path (equivalently,
the no-op cache) denies the same caller. -/

def c1Cache : Cache := cachePutFolderMeta emptyCache budgetFolder

def c1NoteCache : Cache := cachePutNoteMeta emptyCache planNote

/-- C1: a cache hit returns folder 10 (and note 20) to user 2, who has
no ownership, grant, or team relationship to them, while the
Store-based path — which is also what the no-op (disabled) cache
produces — denies the access.  The cache therefore alters the sequence
of authorization decisions, contradicting the cache-transparency
property. -/
theorem c1_cache_hit_bypasses_authorization :
    (cacheIntegratedGetFolder c1Cache baseStore 10 2).1 =
      Except.ok budgetFolder ∧
    getFolder baseStore 10 2 = Except.error Err.accessDeniedViewFolder ∧
    (cacheIntegratedGetFolder emptyCache baseStore 10 2).1 =
      Except.error Err.accessDeniedViewFolder ∧
    (cacheIntegratedGetNote c1NoteCache baseStore 20 2).1 =
      Except.ok planNote ∧
    getNote baseStore 20 2 = Except.error Err.accessDeniedViewNote ∧
    (cacheIntegratedGetNote emptyCache baseStore 20 2).1 =
      Except.error Err.accessDeniedViewNote := by
  exact ⟨rfl, rfl, rfl, rfl, rfl, rfl⟩

/-! ## Claim C4 — not-found vs access-denied (corrected)

The service checks ownership and grants before it ever looks the asset
up, so an unknown folder ID yields the same access-denied error as an
existing folder the caller is unrelated to; the dedicated "folder not
found" error is unreachable for a caller with no grant row.  An unknown
note ID on the non-owner path is reported through the wrapped
"failed to get note" error rather than the dedicated not-found one. -/

/-- C4 counterexample: reading nonexistent folder 99 as user 2 yields
`accessDeniedViewFolder`, not the distinguishable not-found result the
claim requires. -/
theorem c4_counterexample :
    getFolder baseStore 99 2 = Except.error Err.accessDeniedViewFolder ∧
    getFolder baseStore 99 2 ≠ Except.error Err.folderNotFound := by
  refine ⟨rfl, fun h => ?_⟩
  have heq : getFolder baseStore 99 2 = Except.error Err.accessDeniedViewFolder := rfl
  rw [heq] at h
  injection h with h2
  exact Err.noConfusion h2

/-- C4 amended: for a caller with no grant row on the asset, reading a
nonexistent folder returns access-denied (conflated with denial), and
reading a nonexistent note returns the wrapped fetch error; both are
distinct from the dedicated not-found errors, which the unknown-ID
paths do not produce. -/
theorem c4_unknown_id_conflated_with_denial (st : Store) (fid nid u : Nat)
    (hf : folderGetByID st fid = none)
    (hfa : checkFolderAccess st fid u = "")
    (hn : noteGetByID st nid = none)
    (hna : checkNoteAccess st nid u = "") :
    getFolder st fid u = Except.error Err.accessDeniedViewFolder ∧
    getNote st nid u = Except.error Err.failedToGetNote ∧
    Err.accessDeniedViewFolder ≠ Err.folderNotFound ∧
    Err.failedToGetNote ≠ Err.noteNotFound := by
  have hown := folderOwnership_false_of_getByID_none u hf
  have hnown := noteOwnership_false_of_getByID_none u hn
  refine ⟨?_, ?_, by simp, by simp⟩
  · simp [getFolder, hown, hfa]
  · simp [getNote, hnown, hna, hn]

/-- C4 witness: the amended statement at the concrete base store. -/
theorem c4_witness :
    getFolder baseStore 99 7 = Except.error Err.accessDeniedViewFolder ∧
    getNote baseStore 98 7 = Except.error Err.failedToGetNote :=
  ⟨(c4_unknown_id_conflated_with_denial baseStore 99 98 7 rfl rfl rfl rfl).1,
   (c4_unknown_id_conflated_with_denial baseStore 99 98 7 rfl rfl rfl rfl).2.1⟩

/-! ## Claim C3 — ownership supremacy (confirmed)

Every service operation checks ownership first and, once it holds,
never consults a share grant; the owner's read, update, and delete
succeed, and replacing the entire share-grant state of the store with
anything else does not change the owner's results. -/

/-- C3: for a folder and a note fetched by ID and owned by `u`, the
owner's read returns the asset, update (with the required non-empty
name/title) and delete succeed, no result is an access-denied error,
and all of these results are unchanged under an arbitrary replacement
of the store's share-grant tables. -/
theorem c3_ownership_supremacy (st : Store) (u : Nat) (f : Folder) (n : Note)
    (name description title bodyText : String)
    (fs : List FolderShare) (ns : List NoteShare)
    (hf : folderGetByID st f.folderId = some f) (hfo : f.ownerId = u)
    (hn : noteGetByID st n.noteId = some n) (hno : n.ownerId = u)
    (hname : name ≠ "") (htitle : title ≠ "") :
    getFolder st f.folderId u = Except.ok f ∧
    (updateFolder st f.folderId u name description).isOk = true ∧
    (deleteFolder st f.folderId u).isOk = true ∧
    getNote st n.noteId u = Except.ok n ∧
    (updateNote st n.noteId u title bodyText).isOk = true ∧
    (deleteNote st n.noteId u).isOk = true ∧
    getFolder { st with folderShares := fs, noteShares := ns } f.folderId u =
      Except.ok f ∧
    (updateFolder { st with folderShares := fs, noteShares := ns }
      f.folderId u name description).isOk = true ∧
    (deleteFolder { st with folderShares := fs, noteShares := ns }
      f.folderId u).isOk = true ∧
    getNote { st with folderShares := fs, noteShares := ns } n.noteId u =
      Except.ok n ∧
    (updateNote { st with folderShares := fs, noteShares := ns }
      n.noteId u title bodyText).isOk = true ∧
    (deleteNote { st with folderShares := fs, noteShares := ns }
      n.noteId u).isOk = true := by
  have hown := folderOwnership_of_getByID hf hfo
  have hnown := noteOwnership_of_getByID hn hno
  have hown2 : folderCheckOwnership { st with folderShares := fs, noteShares := ns }
      f.folderId u = true := hown
  have hnown2 : noteCheckOwnership { st with folderShares := fs, noteShares := ns }
      n.noteId u = true := hnown
  have hf2 : folderGetByID { st with folderShares := fs, noteShares := ns }
      f.folderId = some f := hf
  have hn2 : noteGetByID { st with folderShares := fs, noteShares := ns }
      n.noteId = some n := hn
  refine ⟨?_, ?_, ?_, ?_, ?_, ?_, ?_, ?_, ?_, ?_, ?_, ?_⟩
  · simp [getFolder, hown, getFolderFetch, hf]
  · simp [updateFolder, hname, hf, hown, Except.isOk, Except.toBool]
  · simp [deleteFolder, hf, hown, Except.isOk, Except.toBool]
  · simp [getNote, hnown, getNoteFetch, hn]
  · simp [updateNote, htitle, hnown, updateNoteApply, hn, Except.isOk, Except.toBool]
  · simp [deleteNote, hnown, Except.isOk, Except.toBool]
  · simp [getFolder, hown2, getFolderFetch, hf2]
  · simp [updateFolder, hname, hf2, hown2, Except.isOk, Except.toBool]
  · simp [deleteFolder, hf2, hown2, Except.isOk, Except.toBool]
  · simp [getNote, hnown2, getNoteFetch, hn2]
  · simp [updateNote, htitle, hnown2, updateNoteApply, hn2, Except.isOk, Except.toBool]
  · simp [deleteNote, hnown2, Except.isOk, Except.toBool]

/-- C3 witness: alice (user 1) owns folder 10 and note 20 of the base
store; her read and update succeed even with the share tables replaced
by a grant state that gives her nothing. -/
theorem c3_witness :
    getFolder baseStore 10 1 = Except.ok budgetFolder ∧
    (updateNote baseStore 20 1 "Plan2" "q4").isOk = true :=
  ⟨(c3_ownership_supremacy baseStore 1 budgetFolder planNote
      "B2" "d" "Plan2" "q4" [] [] rfl rfl rfl rfl
      (by decide) (by decide)).1,
   (c3_ownership_supremacy baseStore 1 budgetFolder planNote
      "B2" "d" "Plan2" "q4" [] [] rfl rfl rfl rfl
      (by decide) (by decide)).2.2.2.2.1⟩

/-! ## Claim C2 — access-resolution precedence for notes (corrected)

For reads (GetNote) the parent folder is consulted only when no direct
note grant exists, as the claim states.  For writes (UpdateNote),
however, the folder fallback is consulted whenever the direct grant
level is not "write" — including when a direct READ grant exists — so a
direct read grant does not fix the effective access at read: a write
grant on the parent folder still allows the note write. -/

/-- A store in which note 20 carries a direct "read" grant for user 2
while its parent folder 10 carries a "write" grant for user 2. -/
def c2Store : Store :=
  { baseStore with
    folderShares := [⟨10, 2, "write", 1⟩],
    noteShares := [⟨20, 2, "read", 1⟩] }

/-- C2 counterexample: user 2 has a direct read grant on note 20, yet
the note write succeeds through the parent-folder write grant — under
the claimed precedence the direct grant's level (read) would govern and
the write would be denied. -/
theorem c2_counterexample :
    checkNoteAccess c2Store 20 2 = "read" ∧
    noteCheckOwnership c2Store 20 2 = false ∧
    (updateNote c2Store 20 2 "Plan2" "q4").isOk = true := by
  exact ⟨rfl, rfl, rfl⟩

/-- C2 amended: for a non-owner, a note write succeeds iff the direct
note grant is "write" or the parent-folder grant is "write" (the folder
fallback is consulted whenever the direct grant is below write, even if
a direct grant exists); for reads, the parent folder is indeed
consulted only when no direct grant exists. -/
theorem c2_note_access_resolution (st : Store) (noteID u : Nat)
    (title bodyText : String) (n : Note)
    (hn : noteGetByID st noteID = some n)
    (hown : noteCheckOwnership st noteID u = false)
    (htitle : title ≠ "") :
    ((updateNote st noteID u title bodyText).isOk = true ↔
      (checkNoteAccess st noteID u = "write" ∨
        checkFolderAccess st n.folderId u = "write")) ∧
    (checkNoteAccess st noteID u ≠ "" →
      getNote st noteID u = getNoteFetch st noteID) := by
  constructor
  · by_cases hd : checkNoteAccess st noteID u = "write"
    · simp [updateNote, htitle, hown, hd, updateNoteApply, hn,
        Except.isOk, Except.toBool]
    · by_cases hfw : checkFolderAccess st n.folderId u = "write"
      · simp [updateNote, htitle, hown, hd, hn, hfw, updateNoteApply,
          Except.isOk, Except.toBool]
      · simp [updateNote, htitle, hown, hd, hn, hfw,
          Except.isOk, Except.toBool]
  · intro hd
    simp [getNote, hown, hd]

/-- C2 witness: in a store where user 2 has no direct grant on note 20
but a "write" grant on its folder, the amended resolution lets the
write through. -/
theorem c2_witness :
    (updateNote { baseStore with folderShares := [⟨10, 2, "write", 1⟩] }
      20 2 "Plan2" "q4").isOk = true :=
  (c2_note_access_resolution
      { baseStore with folderShares := [⟨10, 2, "write", 1⟩] }
      20 2 "Plan2" "q4" planNote rfl rfl (by decide)).1.mpr (Or.inr rfl)

/-! ## Claim C5 — no self-share (corrected)

A self-share always fails and never persists a grant, but the rejection
is NOT issued before any Store call: the service first runs the
ownership check and the target-user lookup against the Store, and only
then compares owner and target.  (When the caller does not own the
asset, the self-share attempt is rejected as access-denied rather than
as a validation error.) -/

/-- C5 counterexample: alice (user 1, owner of folder 10) shares folder
10 with herself; the call fails with the self-share validation error,
but its store-call trace already contains the ownership check and a
user lookup — the rejection did not happen before any Store call. -/
theorem c5_counterexample :
    shareFolderT baseStore 10 1 1 "read" =
      (Except.error Err.cannotShareFolderWithSelf,
        [StoreCall.folderOwnershipCheck, StoreCall.userLookup]) ∧
    (shareFolderT baseStore 10 1 1 "read").2 ≠ [] := by
  refine ⟨rfl, ?_⟩
  intro h
  have heq : (shareFolderT baseStore 10 1 1 "read").2 =
      [StoreCall.folderOwnershipCheck, StoreCall.userLookup] := rfl
  rw [heq] at h
  exact List.noConfusion h

/-- C5 amended: a self-share of a folder or note NEVER returns success
and so never persists a grant, on every path — invalid level, non-owner
and owner alike.  When the caller owns the asset, the level is valid
and the caller exists as a user, the result is the self-share
validation error, issued only after the ownership check and the
target-user lookup have hit the Store; when the caller does not own the
asset, the self-share fails as access denied rather than as a
validation error. -/
theorem c5_self_share_always_fails (st : Store) (fid nid u : Nat)
    (level : String) :
    (∀ st2, shareFolder st fid u u level ≠ Except.ok st2) ∧
    (∀ st2, shareNote st nid u u level ≠ Except.ok st2) ∧
    (folderCheckOwnership st fid u = true → userGetByID st u ≠ none →
      (level = "read" ∨ level = "write") →
      shareFolderT st fid u u level =
        (Except.error Err.cannotShareFolderWithSelf,
          [StoreCall.folderOwnershipCheck, StoreCall.userLookup])) ∧
    (noteCheckOwnership st nid u = true → userGetByID st u ≠ none →
      (level = "read" ∨ level = "write") →
      shareNoteT st nid u u level =
        (Except.error Err.cannotShareNoteWithSelf,
          [StoreCall.noteOwnershipCheck, StoreCall.userLookup])) ∧
    (folderCheckOwnership st fid u = false →
      (level = "read" ∨ level = "write") →
      shareFolder st fid u u level =
        Except.error Err.accessDeniedShareFolder) ∧
    (noteCheckOwnership st nid u = false →
      (level = "read" ∨ level = "write") →
      shareNote st nid u u level =
        Except.error Err.accessDeniedShareNote) := by
  refine ⟨?_, ?_, ?_, ?_, ?_, ?_⟩
  · intro st2 hok
    by_cases hlv : (level != "read" && level != "write") = true
    · simp [shareFolder, shareFolderT, hlv] at hok
    · rw [Bool.not_eq_true] at hlv
      by_cases hown : folderCheckOwnership st fid u
      · cases hu : userGetByID st u with
        | none => simp [shareFolder, shareFolderT, hlv, hown, hu] at hok
        | some usr => simp [shareFolder, shareFolderT, hlv, hown, hu] at hok
      · simp only [Bool.not_eq_true] at hown
        simp [shareFolder, shareFolderT, hlv, hown] at hok
  · intro st2 hok
    by_cases hlv : (level != "read" && level != "write") = true
    · simp [shareNote, shareNoteT, hlv] at hok
    · rw [Bool.not_eq_true] at hlv
      by_cases hown : noteCheckOwnership st nid u
      · cases hu : userGetByID st u with
        | none => simp [shareNote, shareNoteT, hlv, hown, hu] at hok
        | some usr => simp [shareNote, shareNoteT, hlv, hown, hu] at hok
      · simp only [Bool.not_eq_true] at hown
        simp [shareNote, shareNoteT, hlv, hown] at hok
  · intro hfo hu hl
    obtain ⟨usr, husr⟩ := Option.ne_none_iff_exists.mp hu
    have hlv : (level != "read" && level != "write") = false := by
      rcases hl with h | h <;> simp [h]
    simp only [shareFolderT, hlv, hfo]
    rw [← husr]
    simp
  · intro hno hu hl
    obtain ⟨usr, husr⟩ := Option.ne_none_iff_exists.mp hu
    have hlv : (level != "read" && level != "write") = false := by
      rcases hl with h | h <;> simp [h]
    simp only [shareNoteT, hlv, hno]
    rw [← husr]
    simp
  · intro hown hl
    have hlv : (level != "read" && level != "write") = false := by
      rcases hl with h | h <;> simp [h]
    simp [shareFolder, shareFolderT, hlv, hown]
  · intro hown hl
    have hlv : (level != "read" && level != "write") = false := by
      rcases hl with h | h <;> simp [h]
    simp [shareNote, shareNoteT, hlv, hown]

/-- C5 witness: at the base store, alice (owner of note 20) self-shares
it and gets the validation error after two store calls, while bob (user
2, not the owner of folder 10) self-shares folder 10 and gets access
denied. -/
theorem c5_witness :
    shareNoteT baseStore 20 1 1 "write" =
      (Except.error Err.cannotShareNoteWithSelf,
        [StoreCall.noteOwnershipCheck, StoreCall.userLookup]) ∧
    shareFolder baseStore 10 2 2 "read" =
      Except.error Err.accessDeniedShareFolder :=
  ⟨(c5_self_share_always_fails baseStore 10 20 1 "write").2.2.2.1
      rfl (by decide) (Or.inr rfl),
   (c5_self_share_always_fails baseStore 10 20 2 "read").2.2.2.2.1
      rfl (Or.inl rfl)⟩

/-! ## Claim C6 — re-sharing overwrites (corrected)

The share repositories issue a plain INSERT, and the share tables have
(asset_id, shared_with_user_id) as primary key: a second share for an
existing (asset, grantee) pair therefore fails with a uniqueness
violation and the original grant keeps its level.  At most one grant
per pair still holds — enforced by the key, not by overwriting. -/

/-- A store in which folder 10 is already shared with user 2 at level
"read" and note 20 is already shared with user 2 at level "read". -/
def c6Store : Store :=
  { baseStore with
    folderShares := [⟨10, 2, "read", 1⟩],
    noteShares := [⟨20, 2, "read", 1⟩] }

/-- C6 counterexample: re-sharing folder 10 with user 2 at level
"write" fails with the insert error instead of succeeding, and the
existing grant still carries level "read", not "write". -/
theorem c6_counterexample :
    shareFolder c6Store 10 1 2 "write" = Except.error Err.failedToShareFolder ∧
    checkFolderAccess c6Store 10 2 = "read" := by
  exact ⟨rfl, rfl⟩

/-- C6 amended: under valid inputs (valid level, caller owns the asset,
both users exist, not a self-share), a share for a pair that already
holds a grant fails with the insert error and persists nothing, while a
share for a pair with no existing grant succeeds by prepending the new
grant — after which exactly one grant for the pair exists, at the
requested level. -/
theorem c6_reshare_conflict (st : Store) (fid nid owner target : Nat)
    (level : String)
    (hl : level = "read" ∨ level = "write")
    (hfo : folderCheckOwnership st fid owner = true)
    (hno : noteCheckOwnership st nid owner = true)
    (ht : userGetByID st target ≠ none)
    (ho : userGetByID st owner ≠ none)
    (hne : owner ≠ target) :
    (st.folderShares.any
        (fun s => s.folderId == fid && s.sharedWithUserId == target) = true →
      shareFolder st fid owner target level =
        Except.error Err.failedToShareFolder) ∧
    (st.noteShares.any
        (fun s => s.noteId == nid && s.sharedWithUserId == target) = true →
      shareNote st nid owner target level =
        Except.error Err.failedToShareNote) ∧
    (st.folderShares.any
        (fun s => s.folderId == fid && s.sharedWithUserId == target) = false →
      shareFolder st fid owner target level =
        Except.ok { st with folderShares :=
          ⟨fid, target, level, owner⟩ :: st.folderShares } ∧
      ((⟨fid, target, level, owner⟩ :: st.folderShares).filter
        (fun s => s.folderId == fid && s.sharedWithUserId == target)).length
        = 1) ∧
    (st.noteShares.any
        (fun s => s.noteId == nid && s.sharedWithUserId == target) = false →
      shareNote st nid owner target level =
        Except.ok { st with noteShares :=
          ⟨nid, target, level, owner⟩ :: st.noteShares } ∧
      ((⟨nid, target, level, owner⟩ :: st.noteShares).filter
        (fun s => s.noteId == nid && s.sharedWithUserId == target)).length
        = 1) := by
  obtain ⟨tu, htu⟩ := Option.ne_none_iff_exists.mp ht
  obtain ⟨ou, hou⟩ := Option.ne_none_iff_exists.mp ho
  have hlv : (level != "read" && level != "write") = false := by
    rcases hl with h | h <;> simp [h]
  have hbne : (owner == target) = false := by
    simp [hne]
  refine ⟨?_, ?_, ?_, ?_⟩
  · intro hdup
    simp [shareFolder, shareFolderT, hlv, hfo, ← htu, ← hou, hbne,
      repoShareFolder, hdup]
  · intro hdup
    simp [shareNote, shareNoteT, hlv, hno, ← htu, ← hou, hbne,
      repoShareNote, hdup]
  · intro hfresh
    have hnil : st.folderShares.filter
        (fun s => s.folderId == fid && s.sharedWithUserId == target) = [] := by
      rw [List.filter_eq_nil_iff]
      intro s hs
      have := List.any_eq_false.mp hfresh s hs
      simpa using this
    constructor
    · simp [shareFolder, shareFolderT, hlv, hfo, ← htu, ← hou, hbne,
        repoShareFolder, hfresh]
    · simp [List.filter, hnil]
  · intro hfresh
    have hnil : st.noteShares.filter
        (fun s => s.noteId == nid && s.sharedWithUserId == target) = [] := by
      rw [List.filter_eq_nil_iff]
      intro s hs
      have := List.any_eq_false.mp hfresh s hs
      simpa using this
    constructor
    · simp [shareNote, shareNoteT, hlv, hno, ← htu, ← hou, hbne,
        repoShareNote, hfresh]
    · simp [List.filter, hnil]

/-- C6 witness: the amended statement at the concrete conflicted store —
the folder re-share fails with the insert error, and a fresh share of
note 20 with user 3 succeeds with exactly one pair grant. -/
theorem c6_witness :
    shareFolder c6Store 10 1 2 "read" = Except.error Err.failedToShareFolder ∧
    shareNote c6Store 20 1 3 "read" =
      Except.ok { c6Store with noteShares :=
        ⟨20, 3, "read", 1⟩ :: c6Store.noteShares } :=
  ⟨(c6_reshare_conflict c6Store 10 20 1 2 "read" (Or.inl rfl) rfl rfl
      (by decide) (by decide) (by decide)).1 rfl,
   ((c6_reshare_conflict c6Store 10 20 1 3 "read" (Or.inl rfl) rfl rfl
      (by decide) (by decide) (by decide)).2.2.2 rfl).1⟩

/-! ## Claim C7 — idempotent invalidation handlers (corrected)

`RemoveTeamMember` (LRem with count 0) is idempotent.  `AddTeamMember`,
however, LPushes the member unconditionally whenever the key exists, so
re-applying a member/manager-added event to a populated entry appends a
DUPLICATE list element: the cache state differs, even though the set of
cached member IDs is unchanged. -/

/-- A cache whose team-members namespace holds one populated entry. -/
def c7Cache : Cache := { emptyCache with teamMembers := [(1, [10])] }

/-- The team-members lookup on a cache whose entry list starts with the
looked-up key. -/
theorem teamLookup_cons_self (c : Cache) (t : Nat) (e : List Nat)
    (l : List (Nat × List Nat)) :
    teamLookup { c with teamMembers := (t, e) :: l } t = some e := by
  simp [teamLookup]

/-- AddTeamMember on a populated key LPushes unconditionally. -/
theorem addTeamMember_present (c : Cache) (t m : Nat) (e : List Nat)
    (hl : teamLookup c t = some e) :
    addTeamMember c t m =
      { c with teamMembers :=
        (t, m :: e) :: c.teamMembers.filter (fun p => !(p.1 == t)) } := by
  simp only [addTeamMember, hl]

/-- AddTeamMember on a missing key is skipped. -/
theorem addTeamMember_absent (c : Cache) (t m : Nat)
    (hl : teamLookup c t = none) : addTeamMember c t m = c := by
  simp only [addTeamMember, hl]

/-- RemoveTeamMember on a populated key removes every occurrence. -/
theorem removeTeamMember_present (c : Cache) (t m : Nat) (e : List Nat)
    (hl : teamLookup c t = some e) :
    removeTeamMember c t m =
      { c with teamMembers :=
        (t, e.filter (fun x => !(x == m))) ::
          c.teamMembers.filter (fun p => !(p.1 == t)) } := by
  simp only [removeTeamMember, hl]

/-- RemoveTeamMember on a missing key removes nothing. -/
theorem removeTeamMember_absent (c : Cache) (t m : Nat)
    (hl : teamLookup c t = none) : removeTeamMember c t m = c := by
  simp only [removeTeamMember, hl]

/-- C7 counterexample: applying the member-added update for member 20
twice to the populated entry of team 1 leaves the duplicated list
[20, 20, 10], not the [20, 10] that a single application leaves — the
final cache states differ. -/
theorem c7_counterexample :
    teamLookup (addTeamMember (addTeamMember c7Cache 1 20) 1 20) 1 =
      some [20, 20, 10] ∧
    teamLookup (addTeamMember c7Cache 1 20) 1 = some [20, 10] ∧
    addTeamMember (addTeamMember c7Cache 1 20) 1 20 ≠
      addTeamMember c7Cache 1 20 := by
  exact ⟨rfl, rfl, by decide⟩

/-- C7 amended: re-applying a member-removed update is exactly
idempotent, and re-applying a member-added update leaves the SET of
cached member IDs unchanged (though it appends a duplicate list
element). -/
theorem c7_invalidation_idempotency (c : Cache) (teamID memberID x : Nat) :
    removeTeamMember (removeTeamMember c teamID memberID) teamID memberID =
      removeTeamMember c teamID memberID ∧
    ((∃ e, teamLookup (addTeamMember (addTeamMember c teamID memberID)
        teamID memberID) teamID = some e ∧ x ∈ e) ↔
      (∃ e, teamLookup (addTeamMember c teamID memberID) teamID = some e ∧
        x ∈ e)) := by
  constructor
  · cases hl : teamLookup c teamID with
    | none =>
      rw [removeTeamMember_absent c teamID memberID hl,
        removeTeamMember_absent c teamID memberID hl]
    | some entry =>
      rw [removeTeamMember_present c teamID memberID entry hl]
      rw [removeTeamMember_present _ teamID memberID _
        (teamLookup_cons_self c teamID _ _)]
      simp [List.filter_filter]
  · cases hl : teamLookup c teamID with
    | none =>
      rw [addTeamMember_absent c teamID memberID hl,
        addTeamMember_absent c teamID memberID hl]
    | some entry =>
      rw [addTeamMember_present c teamID memberID entry hl]
      rw [addTeamMember_present _ teamID memberID _
        (teamLookup_cons_self c teamID _ _)]
      rw [teamLookup_cons_self, teamLookup_cons_self]
      simp only [Option.some.injEq]
      constructor
      · rintro ⟨e, he, hx⟩
        refine ⟨memberID :: entry, rfl, ?_⟩
        rw [← he] at hx
        simp only [List.mem_cons] at hx ⊢
        tauto
      · rintro ⟨e, he, hx⟩
        refine ⟨memberID :: memberID :: entry, rfl, ?_⟩
        rw [← he] at hx
        simp only [List.mem_cons] at hx ⊢
        tauto

/-! ## Claim C8 — fallback on partial failure (confirmed)

When the incremental ACL primitive fails (HSet for shared, HDel for
unshared) and the fallback Del succeeds, the handlers leave the asset's
ACL key absent, so the next ACL read is a clean miss. -/

/-- find? for a key never succeeds on a list from which that key was
filtered out. -/
theorem find?_key_filter_ne {α : Type} (l : List (Nat × α)) (k : Nat) :
    (l.filter (fun p => !(p.1 == k))).find? (fun p => p.1 == k) = none := by
  rw [List.find?_eq_none]
  intro p hp
  have := (List.mem_filter.mp hp).2
  simp_all

/-- The ACL lookup for a key misses after the key has been filtered out
of the ACL namespace, which is what InvalidateAssetACL does. -/
theorem aclLookup_filtered (c : Cache) (k : Nat) :
    aclLookup { c with assetACL :=
      c.assetACL.filter (fun p => !(p.1 == k)) } k = none := by
  simp [aclLookup, find?_key_filter_ne]

/-- C8: with the incremental primitive failing and Del working, both
invalidation handlers leave the asset's ACL cache entry fully absent:
the subsequent lookup for that asset is a clean miss. -/
theorem c8_fallback_leaves_clean_miss (c : Cache) (assetID userID : Nat)
    (level : String) (fl fl2 : CacheFaults)
    (h1 : fl.hsetFails = true) (h2 : fl.delFails = false)
    (h3 : fl2.hdelFails = true) (h4 : fl2.delFails = false) :
    aclLookup (handleAssetShared fl c assetID userID level) assetID = none ∧
    aclLookup (handleAssetUnshared fl2 c assetID userID) assetID = none := by
  constructor
  · cases ha : aclLookup c assetID with
    | none =>
      have hupd : updateAssetACL fl c assetID userID level = some c := by
        simp only [updateAssetACL, ha]
      simp only [handleAssetShared, hupd]
      exact ha
    | some entry =>
      have hupd : updateAssetACL fl c assetID userID level = none := by
        simp only [updateAssetACL, ha, h1, if_true]
      have hinv : invalidateAssetACL fl c assetID =
          some { c with assetACL :=
            c.assetACL.filter (fun p => !(p.1 == assetID)) } := by
        simp only [invalidateAssetACL, h2, Bool.false_eq_true, if_false]
      simp only [handleAssetShared, hupd, hinv]
      exact aclLookup_filtered c assetID
  · have hrem : removeAssetACL fl2 c assetID userID = none := by
      simp only [removeAssetACL, h3, if_true]
    have hinv : invalidateAssetACL fl2 c assetID =
        some { c with assetACL :=
          c.assetACL.filter (fun p => !(p.1 == assetID)) } := by
      simp only [invalidateAssetACL, h4, Bool.false_eq_true, if_false]
    simp only [handleAssetUnshared, hrem, hinv]
    exact aclLookup_filtered c assetID

/-- C8 witness: the statement at a concrete populated ACL cache. -/
theorem c8_witness :
    aclLookup (handleAssetShared ⟨true, true, false⟩
      { emptyCache with assetACL := [(10, [(2, "read")])] } 10 3 "write") 10 =
      none ∧
    aclLookup (handleAssetUnshared ⟨true, true, false⟩
      { emptyCache with assetACL := [(10, [(2, "read")])] } 10 2) 10 = none :=
  c8_fallback_leaves_clean_miss
    { emptyCache with assetACL := [(10, [(2, "read")])] } 10 2 "write"
    ⟨true, true, false⟩ ⟨true, true, false⟩ rfl rfl rfl rfl

/-! ## Claim C9 — bounded retry, no poison pill (confirmed)

processMessage invokes the handler at most 3 times; for a handler that
keeps failing it makes exactly 3 attempts with backoff sleeps of 1 and
2 seconds (2^0 and 2^1: each interval doubles), reports failure, and
the consume loop continues with the next message regardless. -/

theorem processFrom_invocations_le (handler : Nat → Bool)
    (attempt remaining : Nat) :
    (processFrom handler attempt remaining).invocations ≤ remaining := by
  induction remaining generalizing attempt with
  | zero => simp [processFrom]
  | succ r ih =>
    simp only [processFrom]
    split
    · simp
    · split
      · simp
      · simpa using Nat.succ_le_succ (ih (attempt + 1))

/-- C9: the handler is invoked at most 3 times for any message; a
message whose handler always fails is attempted exactly 3 times with
backoffs [1, 2] = [2^0, 2^1] seconds and then reported failed; and
consumption of the remaining messages proceeds unconditionally after
any message's processing completes. -/
theorem c9_bounded_retry (handler : Nat → Bool) (g : Nat → Nat → Bool)
    (m : Nat) (msgs : List Nat)
    (hfail : ∀ a, handler a = false) :
    (∀ h2 : Nat → Bool, (processMessage h2).invocations ≤ 3) ∧
    processMessage handler = ⟨3, [1, 2], false⟩ ∧
    (processMessage handler).backoffs = [2 ^ 0, 2 ^ 1] ∧
    consumeMessages g (m :: msgs) =
      processMessage (g m) :: consumeMessages g msgs := by
  have hrun : processMessage handler = ⟨3, [1, 2], false⟩ := by
    simp [processMessage, processFrom, hfail]
  refine ⟨fun h2 => processFrom_invocations_le h2 0 3, hrun, ?_, ?_⟩
  · rw [hrun]
    decide
  · simp [consumeMessages]

/-- C9 witness: the always-failing handler concretely. -/
theorem c9_witness :
    processMessage (fun _ => false) = ⟨3, [1, 2], false⟩ :=
  (c9_bounded_retry (fun _ => false) (fun _ _ => false) 0 []
    (fun _ => rfl)).2.1

/-! ## Claim C10 — unsharing a non-grantee succeeds silently (confirmed)

The unshare services only check ownership and owner existence; the
repository delete of a non-existent grant removes zero rows and is not
an error, so the call returns success and the store is unchanged. -/

/-- C10: when the caller owns folder/note and the target holds no grant
on it, UnshareFolder/UnshareNote return success with the store exactly
unchanged. -/
theorem c10_unshare_non_grantee (st : Store) (fid nid owner target : Nat)
    (hfo : folderCheckOwnership st fid owner = true)
    (hno : noteCheckOwnership st nid owner = true)
    (hou : userGetByID st owner ≠ none)
    (hfg : st.folderShares.any
      (fun s => s.folderId == fid && s.sharedWithUserId == target) = false)
    (hng : st.noteShares.any
      (fun s => s.noteId == nid && s.sharedWithUserId == target) = false) :
    unshareFolder st fid owner target = Except.ok st ∧
    unshareNote st nid owner target = Except.ok st := by
  obtain ⟨ou, hou2⟩ := Option.ne_none_iff_exists.mp hou
  have hkeepF : st.folderShares.filter
      (fun s => !(s.folderId == fid && s.sharedWithUserId == target)) =
      st.folderShares := by
    rw [List.filter_eq_self]
    intro s hs
    have h5 := List.any_eq_false.mp hfg s hs
    simp only [Bool.not_eq_true'] at h5 ⊢
    simp [h5]
  have hkeepN : st.noteShares.filter
      (fun s => !(s.noteId == nid && s.sharedWithUserId == target)) =
      st.noteShares := by
    rw [List.filter_eq_self]
    intro s hs
    have h5 := List.any_eq_false.mp hng s hs
    simp only [Bool.not_eq_true'] at h5 ⊢
    simp [h5]
  have hrepoF : repoUnshareFolder st fid target = st := by
    simp only [repoUnshareFolder]
    rw [hkeepF]
  have hrepoN : repoUnshareNote st nid target = st := by
    simp only [repoUnshareNote]
    rw [hkeepN]
  constructor
  · simp [unshareFolder, hfo, ← hou2, hrepoF]
  · simp [unshareNote, hno, ← hou2, hrepoN]

/-- C10 witness: alice unshares folder 10 and note 20 from carol (user
3), who holds no grant; both calls succeed and leave the base store
untouched. -/
theorem c10_witness :
    unshareFolder baseStore 10 1 3 = Except.ok baseStore ∧
    unshareNote baseStore 20 1 3 = Except.ok baseStore :=
  c10_unshare_non_grantee baseStore 10 20 1 3 rfl rfl (by decide) rfl rfl

end AssetMgmt
